import Mathlib

/-!
Shallow embedding of the SunoMIDI job-lifecycle client (`SunoMIDIUploader`).

The Python client drives a remote generation job: upload a MIDI file,
trigger generation, poll for completion, download the result.  We model:
  * HTTP responses as a record of status code, raw text body, and the
    parsed JSON object (only the keys the client reads, plus an opaque
    `rest` component standing for arbitrary further server metadata);
  * the network as an explicit `transport : Request → Response` argument,
    and every operation returns the list of requests it issued, in order,
    so that "before any network call" and "no retry" are expressible;
  * Python exceptions as an inductive `PyError` carrying the exact message
    string the source builds with its f-strings;
  * the local filesystem as a partial map from paths to file contents;
  * the `wait_for_completion` while-loop as a fuelled recursion: wall-clock
    time advances by `poll_interval` at each `time.sleep`, polls themselves
    are instantaneous, and the deadline is checked at the top of each
    iteration exactly as in the source.  The extra `fuel` argument only
    makes the recursion total; any outcome other than `.diverge` is the
    outcome of the real (unbounded) loop, and for a positive poll interval
    fuel `timeout + 1` always suffices.
-/

/-- Parsed JSON object returned by the service: the string-valued keys the
client reads via `.get(...)` (absent key ↦ `none`), plus an opaque `rest`
component standing for any other server metadata. -/
structure JsonObject where
  midi_id : Option String
  job_id : Option String
  status : Option String
  error : Option String
  rest : List (String × String)
deriving DecidableEq, Repr

/-- An HTTP response: status code, raw text body (`response.text`), and the
body parsed as JSON (`response.json()`). -/
structure Response where
  statusCode : Nat
  text : String
  json : JsonObject
deriving DecidableEq, Repr

/-- Python exceptions raised by the client, carrying the exact message the
source formats. -/
inductive PyError where
  | fileNotFoundError (msg : String)
  | valueError (msg : String)
  | exception (msg : String)
  | timeoutError (msg : String)
deriving DecidableEq, Repr

/-- JSON body of the generate call: `{"midi_id": ..., "style": ..., "duration": ...}`
plus `"prompt"` only when provided.  `midi_id = none` renders as JSON `null`
(the key is present); `prompt = none` means the key is absent. -/
structure GenPayload where
  midi_id : Option String
  style : String
  duration : Nat
  prompt : Option String
deriving DecidableEq, Repr

/-- An HTTP request issued by the client.  A multipart file entry is
`(field name, filename, bytes, MIME type)`; form data is an ordered list of
`(key, value)` pairs. -/
inductive Request where
  | postMultipart (url : String) (headers : List (String × String))
      (files : List (String × String × String × String))
      (data : List (String × String))
  | postJson (url : String) (headers : List (String × String)) (payload : GenPayload)
  | get (url : String) (headers : List (String × String))
  | getStream (url : String)
deriving DecidableEq, Repr

deriving instance DecidableEq for Except

/-- Python truthiness of an `Optional[str]`: `None` and `""` are falsy. -/
def truthyStr : Option String → Bool
  | none => false
  | some s => !s.isEmpty

/-- Python truthiness of an `Optional[list]`: `None` and `[]` are falsy. -/
def truthyList : Option (List String) → Bool
  | none => false
  | some l => !l.isEmpty

/-- Python `str(...)` of an optional string as interpolated by an f-string:
`None` prints as `"None"`, a string prints verbatim. -/
def pyStrOptStr : Option String → String
  | none => "None"
  | some s => s

/-- Final component of a path (`pathlib.Path(p).name`), i.e. the segment
after the last `/`. -/
def pathName (p : String) : String :=
  String.mk ((p.toList.reverse.takeWhile (fun c => c ≠ '/')).reverse)

/-- Python `str.lower()` (ASCII-faithful). -/
def strLower (s : String) : String :=
  String.mk (s.toList.map Char.toLower)

/-- Lowercase hexadecimal rendering of `n` padded to four digits, as in
Python's `\u00XX` escapes. -/
def hex4 (n : Nat) : String :=
  let ds := String.mk (Nat.toDigits 16 n)
  String.mk (List.replicate (4 - ds.length) '0') ++ ds

/-- JSON escaping of one character as `json.dumps` performs it (faithful for
ASCII input; `ensure_ascii` escaping of non-ASCII code points is not needed
by any claim). -/
def jsonEscapeChar (c : Char) : String :=
  if c = '"' then "\\\""
  else if c = '\\' then "\\\\"
  else if c = '\n' then "\\n"
  else if c = '\r' then "\\r"
  else if c = '\t' then "\\t"
  else if c = '\x08' then "\\b"
  else if c = '\x0c' then "\\f"
  else if c.toNat < 32 then "\\u" ++ hex4 c.toNat
  else String.singleton c

/-- `json.dumps` of a Python string. -/
def jsonDumpsString (s : String) : String :=
  "\"" ++ String.join (s.toList.map jsonEscapeChar) ++ "\""

/-- `json.dumps` of a list of strings: default separators, i.e. items joined
by `", "` inside brackets. -/
def jsonDumpsList (l : List String) : String :=
  "[" ++ String.intercalate ", " (l.map jsonDumpsString) ++ "]"

/-- `pathlib.Path(p).suffix`: the extension of the final component, i.e. the
segment from the last dot, provided that dot is neither the first nor the
last character of the name; otherwise the empty string. -/
def pathSuffix (p : String) : String :=
  let name := (pathName p).toList
  match name.reverse.findIdx? (fun c => c = '.') with
  | none => ""
  | some j =>
    let i := name.length - 1 - j
    if 0 < i ∧ i < name.length - 1 then String.mk (name.drop i) else ""

/-- The client: bearer token and base endpoint, fixed at construction. -/
structure SunoMIDIUploader where
  api_key : String
  base_url : String
deriving DecidableEq, Repr

/-- The JSON header set built in `__init__`: bearer token plus JSON
content type. -/
def SunoMIDIUploader.headers (c : SunoMIDIUploader) : List (String × String) :=
  [("Authorization", "Bearer " ++ c.api_key), ("Content-Type", "application/json")]

/-- `upload_midi`: checks existence, then the `.mid`/`.midi` extension
(case-insensitively), reads the file, builds the multipart request with the
optional form fields included only when truthy (tags JSON-encoded into a
single field), POSTs it to `{base}/uploads/midi` with the token-only header
set, and fails on any non-200 with the status code and body in the message.
Returns the parsed JSON on success, together with the requests issued. -/
def SunoMIDIUploader.upload_midi (c : SunoMIDIUploader) (fs : String → Option String)
    (midi_path : String) (title style : Option String) (tags : Option (List String))
    (transport : Request → Response) : Except PyError JsonObject × List Request :=
  match fs midi_path with
  | none => (.error (.fileNotFoundError ("MIDI file not found: " ++ midi_path)), [])
  | some midi_data =>
    if ¬ (strLower (pathSuffix midi_path) = ".mid" ∨ strLower (pathSuffix midi_path) = ".midi") then
      (.error (.valueError "File must be a MIDI file (.mid or .midi)"), [])
    else
      let files := [("midi_file", pathName midi_path, midi_data, "audio/midi")]
      let data :=
        (if truthyStr title then [("title", title.getD "")] else []) ++
        (if truthyStr style then [("style", style.getD "")] else []) ++
        (if truthyList tags then [("tags", jsonDumpsList (tags.getD []))] else [])
      let upload_url := c.base_url ++ "/uploads/midi"
      let upload_headers := [("Authorization", "Bearer " ++ c.api_key)]
      let req := Request.postMultipart upload_url upload_headers files data
      let response := transport req
      if response.statusCode ≠ 200 then
        (.error (.exception ("Upload failed: " ++ toString response.statusCode ++ " - " ++
          response.text)), [req])
      else
        (.ok response.json, [req])

/-- `generate_from_midi`: always performs a full upload first (propagating
its failure), reads `midi_id` from the upload result via `.get` (possibly
`None`), then POSTs the JSON payload to `{base}/generate` with the JSON
header set, `prompt` included only when truthy. -/
def SunoMIDIUploader.generate_from_midi (c : SunoMIDIUploader) (fs : String → Option String)
    (midi_path : String) (prompt : Option String) (style : String) (duration : Nat)
    (transport : Request → Response) : Except PyError JsonObject × List Request :=
  match c.upload_midi fs midi_path none none none transport with
  | (.error e, reqs) => (.error e, reqs)
  | (.ok upload_result, reqs) =>
    let midi_id := upload_result.midi_id
    let generate_url := c.base_url ++ "/generate"
    let payload : GenPayload :=
      { midi_id := midi_id, style := style, duration := duration,
        prompt := if truthyStr prompt then prompt else none }
    let req := Request.postJson generate_url c.headers payload
    let response := transport req
    if response.statusCode ≠ 200 then
      (.error (.exception ("Generation failed: " ++ toString response.statusCode ++ " - " ++
        response.text)), reqs ++ [req])
    else
      (.ok response.json, reqs ++ [req])

/-- `get_generation_status`: one GET to `{base}/generations/{job_id}` with
the JSON header set; non-200 raises with status code and body; otherwise
returns the parsed JSON status object verbatim. -/
def SunoMIDIUploader.get_generation_status (c : SunoMIDIUploader) (job_id : String)
    (transport : Request → Response) : Except PyError JsonObject × List Request :=
  let status_url := c.base_url ++ "/generations/" ++ job_id
  let req := Request.get status_url c.headers
  let response := transport req
  if response.statusCode ≠ 200 then
    (.error (.exception ("Status check failed: " ++ toString response.statusCode ++ " - " ++
      response.text)), [req])
  else
    (.ok response.json, [req])

/-- `download_result`: one streamed GET to the result URL (no auth headers,
the instance is unused); non-200 raises with the status code only; otherwise
the output file is opened and the body (the concatenation of all streamed
chunks) is written to the output path, overwriting any existing file.
Returns the possibly-updated filesystem and the requests issued. -/
def SunoMIDIUploader.download_result (_c : SunoMIDIUploader) (result_url : String)
    (output_path : String) (fs : String → Option String) (transport : Request → Response) :
    Except PyError Unit × (String → Option String) × List Request :=
  let req := Request.getStream result_url
  let response := transport req
  if response.statusCode ≠ 200 then
    (.error (.exception ("Download failed: " ++ toString response.statusCode)), fs, [req])
  else
    (.ok (), (fun p => if p = output_path then some response.text else fs p), [req])

/-- Outcome of `wait_for_completion`: the returned payload, a raised error,
or `.diverge` when the modelling fuel ran out before the loop decided. -/
inductive WaitOutcome where
  | ok (payload : JsonObject)
  | err (e : PyError)
  | diverge
deriving DecidableEq, Repr

/-- One-loop body of `wait_for_completion`, with `polls n` the response the
service gives to the `n`-th status GET.  The pair returned is the outcome
together with the total number of polls issued.  `elapsed` is
`time.time() - start_time`; it grows by `poll_interval` at each
`time.sleep`, and the deadline test `elapsed < timeout` sits at the top of
each iteration as in the source. -/
def waitAux (c : SunoMIDIUploader) (job_id : String) (polls : Nat → Response)
    (timeout poll_interval : Nat) : Nat → Nat → Nat → WaitOutcome × Nat
  | 0, _, n => (.diverge, n)
  | fuel + 1, elapsed, n =>
    if elapsed < timeout then
      match c.get_generation_status job_id (fun _ => polls n) with
      | (.error e, _) => (.err e, n + 1)
      | (.ok st, _) =>
        if st.status = some "completed" then
          (.ok st, n + 1)
        else if st.status = some "failed" then
          (.err (.exception ("Generation failed: " ++ pyStrOptStr st.error)), n + 1)
        else
          waitAux c job_id polls timeout poll_interval fuel (elapsed + poll_interval) (n + 1)
    else
      (.err (.timeoutError ("Generation did not complete within " ++ toString timeout ++
        " seconds")), n)

/-- `wait_for_completion`: run the polling loop from elapsed time 0 with no
polls issued yet.  `fuel` bounds the number of loop iterations only to make
the recursion total; any outcome other than `.diverge` is the outcome of
the real loop. -/
def SunoMIDIUploader.wait_for_completion (c : SunoMIDIUploader) (job_id : String)
    (polls : Nat → Response) (timeout poll_interval fuel : Nat) : WaitOutcome × Nat :=
  waitAux c job_id polls timeout poll_interval fuel 0 0

/-- The form-data component of the single multipart request of an upload
(used to state claims about the wire format). -/
def uploadFormData : List Request → List (String × String)
  | [Request.postMultipart _ _ _ data] => data
  | _ => []

/-! Test fixtures shared by the witnesses below. -/

/-- A concrete client for witnesses. -/
def testClient : SunoMIDIUploader := ⟨"key", "https://api.suno.ai/v1"⟩

/-- A JSON object with no recognised keys. -/
def emptyJson : JsonObject := ⟨none, none, none, none, []⟩

/-- A status payload with `status = "running"`. -/
def runningJson : JsonObject := ⟨none, none, some "running", none, []⟩

/-- A status payload with `status = "completed"` and a result URL. -/
def completedJson : JsonObject := ⟨none, none, some "completed", none, [("audio_url", "u")]⟩

/-- A status payload with `status = "failed"` and an error detail. -/
def failedJson : JsonObject := ⟨none, none, some "failed", some "boom", []⟩

/-- A filesystem holding a single MIDI file `song.mid`. -/
def fsSong : String → Option String := fun p => if p = "song.mid" then some "MIDI" else none

/-! ## Claims -/

/-- C6: for every file path that does not exist, Upload fails with a
NotFound error before any network call (no request issued); for every
existing path whose extension is not `.mid`/`.midi` case-insensitively,
Upload fails with an InvalidInput error before any network call. -/
theorem upload_precondition_checks (c : SunoMIDIUploader) (fs : String → Option String)
    (midi_path : String) (title style : Option String) (tags : Option (List String))
    (transport : Request → Response) :
    (fs midi_path = none →
      c.upload_midi fs midi_path title style tags transport =
        (.error (.fileNotFoundError ("MIDI file not found: " ++ midi_path)), [])) ∧
    (∀ d, fs midi_path = some d →
      ¬ (strLower (pathSuffix midi_path) = ".mid" ∨ strLower (pathSuffix midi_path) = ".midi") →
      c.upload_midi fs midi_path title style tags transport =
        (.error (.valueError "File must be a MIDI file (.mid or .midi)"), [])) := by
  constructor
  · intro h
    unfold SunoMIDIUploader.upload_midi
    rw [h]
  · intro d h hext
    unfold SunoMIDIUploader.upload_midi
    rw [h]
    simp only [if_pos hext]

/-- Witness for C6: a missing path raises NotFound with no request; an
existing `.txt` path raises InvalidInput with no request. -/
theorem upload_precondition_checks_witness :
    testClient.upload_midi (fun p => if p = "a.txt" then some "X" else none) "missing.mid"
        none none none (fun _ => ⟨200, "", emptyJson⟩) =
      (.error (.fileNotFoundError "MIDI file not found: missing.mid"), []) ∧
    testClient.upload_midi (fun p => if p = "a.txt" then some "X" else none) "a.txt"
        none none none (fun _ => ⟨200, "", emptyJson⟩) =
      (.error (.valueError "File must be a MIDI file (.mid or .midi)"), []) :=
  ⟨(upload_precondition_checks testClient (fun p => if p = "a.txt" then some "X" else none)
      "missing.mid" none none none (fun _ => ⟨200, "", emptyJson⟩)).1 (by decide),
   (upload_precondition_checks testClient (fun p => if p = "a.txt" then some "X" else none)
      "a.txt" none none none (fun _ => ⟨200, "", emptyJson⟩)).2 "X" (by decide) (by decide)⟩

/-- C9: a Download that receives a non-200 response leaves the local
filesystem unchanged (the output file is opened only after the status
check succeeds, so a failing download never creates or clobbers the output
path), and the operation raises. -/
theorem download_failure_leaves_fs (c : SunoMIDIUploader) (result_url output_path : String)
    (fs : String → Option String) (transport : Request → Response)
    (h : (transport (Request.getStream result_url)).statusCode ≠ 200) :
    (c.download_result result_url output_path fs transport).2.1 = fs ∧
    (c.download_result result_url output_path fs transport).1 =
      .error (.exception ("Download failed: " ++
        toString (transport (Request.getStream result_url)).statusCode)) := by
  unfold SunoMIDIUploader.download_result
  rw [if_pos h]
  exact ⟨rfl, rfl⟩

/-- Witness for C9: a 404 download against a filesystem already holding the
output path leaves it untouched. -/
theorem download_failure_leaves_fs_witness :
    (testClient.download_result "u" "out.mp3" (fun p => if p = "out.mp3" then some "OLD" else none)
        (fun _ => ⟨404, "nf", emptyJson⟩)).2.1 =
      (fun p => if p = "out.mp3" then some "OLD" else none) ∧
    (testClient.download_result "u" "out.mp3" (fun p => if p = "out.mp3" then some "OLD" else none)
        (fun _ => ⟨404, "nf", emptyJson⟩)).1 =
      .error (.exception "Download failed: 404") :=
  download_failure_leaves_fs testClient "u" "out.mp3"
    (fun p => if p = "out.mp3" then some "OLD" else none)
    (fun _ => ⟨404, "nf", emptyJson⟩) (by decide)

/-! ## Wait-loop step lemmas -/

/-- Unfolding of one iteration of the polling loop. -/
theorem waitAux_succ (c : SunoMIDIUploader) (job_id : String) (polls : Nat → Response)
    (timeout poll_interval fuel elapsed n : Nat) :
    waitAux c job_id polls timeout poll_interval (fuel + 1) elapsed n =
      if elapsed < timeout then
        match c.get_generation_status job_id (fun _ => polls n) with
        | (.error e, _) => (.err e, n + 1)
        | (.ok st, _) =>
          if st.status = some "completed" then
            (.ok st, n + 1)
          else if st.status = some "failed" then
            (.err (.exception ("Generation failed: " ++ pyStrOptStr st.error)), n + 1)
          else
            waitAux c job_id polls timeout poll_interval fuel (elapsed + poll_interval) (n + 1)
      else
        (.err (.timeoutError ("Generation did not complete within " ++ toString timeout ++
          " seconds")), n) := rfl

/-- A 200 poll whose status is neither `"completed"` nor `"failed"` makes the
loop sleep and poll again. -/
theorem waitAux_continue (c : SunoMIDIUploader) (job_id : String) (polls : Nat → Response)
    (timeout poll_interval fuel elapsed n : Nat)
    (hlt : elapsed < timeout) (hc : (polls n).statusCode = 200)
    (hnc : (polls n).json.status ≠ some "completed")
    (hnf : (polls n).json.status ≠ some "failed") :
    waitAux c job_id polls timeout poll_interval (fuel + 1) elapsed n =
      waitAux c job_id polls timeout poll_interval fuel (elapsed + poll_interval) (n + 1) := by
  rw [waitAux_succ, if_pos hlt]
  unfold SunoMIDIUploader.get_generation_status
  simp only [hc]
  simp [hnc, hnf]

/-- A 200 poll with status `"completed"` makes the loop return that payload. -/
theorem waitAux_complete (c : SunoMIDIUploader) (job_id : String) (polls : Nat → Response)
    (timeout poll_interval fuel elapsed n : Nat)
    (hlt : elapsed < timeout) (hc : (polls n).statusCode = 200)
    (hs : (polls n).json.status = some "completed") :
    waitAux c job_id polls timeout poll_interval (fuel + 1) elapsed n =
      (.ok (polls n).json, n + 1) := by
  rw [waitAux_succ, if_pos hlt]
  unfold SunoMIDIUploader.get_generation_status
  simp only [hc]
  simp [hs]

/-- A 200 poll with status `"failed"` makes the loop raise, carrying the
server-reported `error` field. -/
theorem waitAux_failed (c : SunoMIDIUploader) (job_id : String) (polls : Nat → Response)
    (timeout poll_interval fuel elapsed n : Nat)
    (hlt : elapsed < timeout) (hc : (polls n).statusCode = 200)
    (hs : (polls n).json.status = some "failed") :
    waitAux c job_id polls timeout poll_interval (fuel + 1) elapsed n =
      (.err (.exception ("Generation failed: " ++ pyStrOptStr (polls n).json.error)), n + 1) := by
  rw [waitAux_succ, if_pos hlt]
  unfold SunoMIDIUploader.get_generation_status
  simp only [hc]
  simp [hs]

/-- Once the deadline is reached, the iteration raises Timeout without
polling. -/
theorem waitAux_deadline (c : SunoMIDIUploader) (job_id : String) (polls : Nat → Response)
    (timeout poll_interval fuel elapsed n : Nat) (hge : ¬ elapsed < timeout) :
    waitAux c job_id polls timeout poll_interval (fuel + 1) elapsed n =
      (.err (.timeoutError ("Generation did not complete within " ++ toString timeout ++
        " seconds")), n) := by
  rw [waitAux_succ, if_neg hge]

/-- Poll sequence for the C2 witness: running, running, then completed. -/
def pollsC2 : Nat → Response := fun n =>
  if n < 2 then ⟨200, "r", runningJson⟩ else ⟨200, "c", completedJson⟩

/-- Poll sequence for the C3 witness: running, then failed. -/
def pollsC3 : Nat → Response := fun n =>
  if n = 0 then ⟨200, "r", runningJson⟩ else ⟨200, "f", failedJson⟩

/-- Poll sequence that reports `running` forever. -/
def pollsRun : Nat → Response := fun _ => ⟨200, "r", runningJson⟩

/-- C2: on poll responses with statuses `[running, running, completed]` and a
poll interval short enough that the deadline is not hit (in particular a
0-delay interval), the loop performs exactly 3 polls and returns the full
status payload of the third response. -/
theorem wait_three_polls_completed (c : SunoMIDIUploader) (job_id : String)
    (polls : Nat → Response) (timeout poll_interval fuel : Nat)
    (hc0 : (polls 0).statusCode = 200) (hs0 : (polls 0).json.status = some "running")
    (hc1 : (polls 1).statusCode = 200) (hs1 : (polls 1).json.status = some "running")
    (hc2 : (polls 2).statusCode = 200) (hs2 : (polls 2).json.status = some "completed")
    (ht : 2 * poll_interval < timeout) (hf : 3 ≤ fuel) :
    c.wait_for_completion job_id polls timeout poll_interval fuel =
      (.ok (polls 2).json, 3) := by
  obtain ⟨f, rfl⟩ : ∃ f, fuel = f + 3 := ⟨fuel - 3, by omega⟩
  unfold SunoMIDIUploader.wait_for_completion
  rw [show f + 3 = f + 2 + 1 by omega]
  rw [waitAux_continue c job_id polls timeout poll_interval (f + 2) 0 0
    (by omega) hc0 (by simp [hs0]) (by simp [hs0])]
  simp only [Nat.zero_add]
  rw [show f + 2 = f + 1 + 1 by omega]
  rw [waitAux_continue c job_id polls timeout poll_interval (f + 1) poll_interval 1
    (by omega) hc1 (by simp [hs1]) (by simp [hs1])]
  rw [waitAux_complete c job_id polls timeout poll_interval f
    (poll_interval + poll_interval) 2 (by omega) hc2 hs2]

/-- Witness for C2: the loop over `[running, running, completed]` at 0-delay
returns the completed payload after exactly 3 polls. -/
theorem wait_three_polls_completed_witness :
    testClient.wait_for_completion "job" pollsC2 300 0 301 = (.ok completedJson, 3) :=
  wait_three_polls_completed testClient "job" pollsC2 300 0 301
    (by decide) (by decide) (by decide) (by decide) (by decide) (by decide)
    (by decide) (by decide)

/-- C3: on poll responses with statuses `[running, failed]` (with the
deadline not yet hit at the second iteration), the loop raises the JobFailed
error carrying the server-reported `error` field of the second response,
after exactly 2 polls and never issuing a third. -/
theorem wait_job_failed_two_polls (c : SunoMIDIUploader) (job_id : String)
    (polls : Nat → Response) (timeout poll_interval fuel : Nat)
    (hc0 : (polls 0).statusCode = 200) (hs0 : (polls 0).json.status = some "running")
    (hc1 : (polls 1).statusCode = 200) (hs1 : (polls 1).json.status = some "failed")
    (ht : poll_interval < timeout) (hf : 2 ≤ fuel) :
    c.wait_for_completion job_id polls timeout poll_interval fuel =
      (.err (.exception ("Generation failed: " ++ pyStrOptStr (polls 1).json.error)), 2) := by
  obtain ⟨f, rfl⟩ : ∃ f, fuel = f + 2 := ⟨fuel - 2, by omega⟩
  unfold SunoMIDIUploader.wait_for_completion
  rw [show f + 2 = f + 1 + 1 by omega]
  rw [waitAux_continue c job_id polls timeout poll_interval (f + 1) 0 0
    (by omega) hc0 (by simp [hs0]) (by simp [hs0])]
  simp only [Nat.zero_add]
  rw [waitAux_failed c job_id polls timeout poll_interval f poll_interval 1
    (by omega) hc1 hs1]

/-- Witness for C3: the loop over `[running, failed]` raises with the second
response's error detail after exactly 2 polls. -/
theorem wait_job_failed_two_polls_witness :
    testClient.wait_for_completion "job" pollsC3 300 5 301 =
      (.err (.exception "Generation failed: boom"), 2) :=
  wait_job_failed_two_polls testClient "job" pollsC3 300 5 301
    (by decide) (by decide) (by decide) (by decide) (by decide) (by decide)

/-- C5: a 200 poll response whose `status` field is anything other than
exactly `"completed"` or `"failed"` — a missing key (`none`), an
unrecognized or malformed value — is treated as non-terminal: the iteration
neither returns nor raises, it sleeps and polls again. -/
theorem wait_unknown_status_continues (c : SunoMIDIUploader) (job_id : String)
    (polls : Nat → Response) (timeout poll_interval fuel elapsed n : Nat)
    (hlt : elapsed < timeout) (hc : (polls n).statusCode = 200)
    (hnc : (polls n).json.status ≠ some "completed")
    (hnf : (polls n).json.status ≠ some "failed") :
    waitAux c job_id polls timeout poll_interval (fuel + 1) elapsed n =
      waitAux c job_id polls timeout poll_interval fuel (elapsed + poll_interval) (n + 1) :=
  waitAux_continue c job_id polls timeout poll_interval fuel elapsed n hlt hc hnc hnf

/-- Witness for C5: a response with a malformed status `"qurgle"` and one
with no status key at all both keep the loop polling. -/
theorem wait_unknown_status_continues_witness :
    waitAux testClient "job" (fun _ => ⟨200, "w", ⟨none, none, some "qurgle", none, []⟩⟩)
        300 5 7 0 0 =
      waitAux testClient "job" (fun _ => ⟨200, "w", ⟨none, none, some "qurgle", none, []⟩⟩)
        300 5 6 5 1 ∧
    waitAux testClient "job" (fun _ => ⟨200, "w", emptyJson⟩) 300 5 7 0 0 =
      waitAux testClient "job" (fun _ => ⟨200, "w", emptyJson⟩) 300 5 6 5 1 :=
  ⟨wait_unknown_status_continues testClient "job"
      (fun _ => ⟨200, "w", ⟨none, none, some "qurgle", none, []⟩⟩) 300 5 6 0 0
      (by decide) (by decide) (by decide) (by decide),
   wait_unknown_status_continues testClient "job"
      (fun _ => ⟨200, "w", emptyJson⟩) 300 5 6 0 0
      (by decide) (by decide) (by decide) (by decide)⟩

/-- All-non-terminal responses: every poll returns 200 with a status that is
neither `"completed"` nor `"failed"`. -/
def allNonTerminal (polls : Nat → Response) : Prop :=
  ∀ m, (polls m).statusCode = 200 ∧ (polls m).json.status ≠ some "completed" ∧
    (polls m).json.status ≠ some "failed"

theorem waitAux_nonterminal_times_out (c : SunoMIDIUploader) (job_id : String)
    (polls : Nat → Response) (timeout poll_interval : Nat)
    (hrun : allNonTerminal polls) :
    ∀ fuel elapsed n, 0 < fuel → timeout + poll_interval ≤ elapsed + fuel * poll_interval →
      (waitAux c job_id polls timeout poll_interval fuel elapsed n).1 =
        .err (.timeoutError ("Generation did not complete within " ++ toString timeout ++
          " seconds")) := by
  intro fuel
  induction fuel with
  | zero => intro elapsed n h0 _; omega
  | succ f ih =>
    intro elapsed n _ hbound
    by_cases hlt : elapsed < timeout
    · rw [waitAux_continue c job_id polls timeout poll_interval f elapsed n hlt
        (hrun n).1 (hrun n).2.1 (hrun n).2.2]
      rcases Nat.eq_zero_or_pos f with hf0 | hfpos
      · subst hf0
        exfalso
        omega
      · apply ih (elapsed + poll_interval) (n + 1) hfpos
        have : (f + 1) * poll_interval = f * poll_interval + poll_interval := by
          rw [Nat.succ_mul]
        omega
    · rw [waitAux_deadline c job_id polls timeout poll_interval f elapsed n hlt]

theorem waitAux_nonterminal_count (c : SunoMIDIUploader) (job_id : String)
    (polls : Nat → Response) (timeout poll_interval : Nat)
    (hrun : allNonTerminal polls) :
    ∀ fuel elapsed n,
      (waitAux c job_id polls timeout poll_interval fuel elapsed n).2 = n ∨
      (n + 1 ≤ (waitAux c job_id polls timeout poll_interval fuel elapsed n).2 ∧
        ((waitAux c job_id polls timeout poll_interval fuel elapsed n).2 - n - 1) *
          poll_interval + elapsed < timeout) := by
  intro fuel
  induction fuel with
  | zero => intro elapsed n; left; rfl
  | succ f ih =>
    intro elapsed n
    by_cases hlt : elapsed < timeout
    · rw [waitAux_continue c job_id polls timeout poll_interval f elapsed n hlt
        (hrun n).1 (hrun n).2.1 (hrun n).2.2]
      rcases ih (elapsed + poll_interval) (n + 1) with heq | ⟨hge, hb⟩
      · right
        rw [heq]
        constructor
        · omega
        · have h0 : n + 1 - n - 1 = 0 := by omega
          rw [h0, Nat.zero_mul]
          omega
      · right
        refine ⟨by omega, ?_⟩
        set k := (waitAux c job_id polls timeout poll_interval f (elapsed + poll_interval) (n + 1)).2 with hk
        have h2 : k - n - 1 = (k - (n + 1) - 1) + 1 := by omega
        rw [h2, Nat.succ_mul]
        omega
    · rw [waitAux_deadline c job_id polls timeout poll_interval f elapsed n hlt]
      left
      rfl

/-- C4: on a stream of non-terminal (e.g. all-running) poll responses and a
positive poll interval, the loop terminates (given at least `timeout + 1`
fuel, which then is never exhausted): it raises Timeout once the wall-clock
deadline — measured from the first call and checked at the top of each
iteration — is exceeded, issuing no more than
`ceil(timeout / poll_interval) + 1` polls. -/
theorem wait_all_running_times_out (c : SunoMIDIUploader) (job_id : String)
    (polls : Nat → Response) (timeout poll_interval fuel : Nat)
    (hint : 0 < poll_interval) (hf : timeout + 1 ≤ fuel) (hrun : allNonTerminal polls) :
    (c.wait_for_completion job_id polls timeout poll_interval fuel).1 =
      .err (.timeoutError ("Generation did not complete within " ++ toString timeout ++
        " seconds")) ∧
    (c.wait_for_completion job_id polls timeout poll_interval fuel).2 ≤
      (timeout + poll_interval - 1) / poll_interval + 1 := by
  constructor
  · unfold SunoMIDIUploader.wait_for_completion
    apply waitAux_nonterminal_times_out c job_id polls timeout poll_interval hrun fuel 0 0
      (by omega)
    rw [Nat.zero_add]
    calc timeout + poll_interval
        ≤ timeout * poll_interval + poll_interval :=
          Nat.add_le_add_right (Nat.le_mul_of_pos_right timeout hint) poll_interval
      _ = (timeout + 1) * poll_interval := (Nat.succ_mul timeout poll_interval).symm
      _ ≤ fuel * poll_interval := Nat.mul_le_mul_right poll_interval hf
  · unfold SunoMIDIUploader.wait_for_completion
    rcases waitAux_nonterminal_count c job_id polls timeout poll_interval hrun fuel 0 0 with
      heq | ⟨hge, hb⟩
    · rw [heq]
      exact Nat.zero_le _
    · set k := (waitAux c job_id polls timeout poll_interval fuel 0 0).2 with hk
      have e1 : k - 0 - 1 = k - 1 := by omega
      rw [e1, Nat.add_zero] at hb
      have hd1 : k - 1 ≤ (timeout - 1) / poll_interval :=
        (Nat.le_div_iff_mul_le hint).mpr (Nat.le_sub_one_of_lt hb)
      have hd2 : (timeout - 1) / poll_interval ≤ (timeout + poll_interval - 1) / poll_interval :=
        Nat.div_le_div_right (by omega)
      exact Nat.sub_le_iff_le_add.mp (le_trans hd1 hd2)


/-- Witness for C4: all-`running` responses with deadline 1 and interval 1
end in Timeout within `ceil(1/1) + 1 = 2` polls. -/
theorem wait_all_running_times_out_witness :
    (testClient.wait_for_completion "job" pollsRun 1 1 2).1 =
      .err (.timeoutError "Generation did not complete within 1 seconds") ∧
    (testClient.wait_for_completion "job" pollsRun 1 1 2).2 ≤ (1 + 1 - 1) / 1 + 1 :=
  wait_all_running_times_out testClient "job" pollsRun 1 1 2 (by decide) (by decide)
    (fun m =>
      ⟨rfl, by show (some "running" : Option String) ≠ some "completed"; decide,
        by show (some "running" : Option String) ≠ some "failed"; decide⟩)

/-- Full behaviour of `upload_midi` on an existing file with a valid
extension: one multipart POST is issued and the outcome is decided by the
response's status code. -/
theorem upload_midi_valid (c : SunoMIDIUploader) (fs : String → Option String)
    (midi_path : String) (title style : Option String) (tags : Option (List String))
    (transport : Request → Response) (d : String)
    (hfs : fs midi_path = some d)
    (hext : strLower (pathSuffix midi_path) = ".mid" ∨
      strLower (pathSuffix midi_path) = ".midi") :
    c.upload_midi fs midi_path title style tags transport =
      (let req := Request.postMultipart (c.base_url ++ "/uploads/midi")
          [("Authorization", "Bearer " ++ c.api_key)]
          [("midi_file", pathName midi_path, d, "audio/midi")]
          ((if truthyStr title then [("title", title.getD "")] else []) ++
           (if truthyStr style then [("style", style.getD "")] else []) ++
           (if truthyList tags then [("tags", jsonDumpsList (tags.getD []))] else []))
       if (transport req).statusCode ≠ 200 then
         (.error (.exception ("Upload failed: " ++ toString (transport req).statusCode ++
           " - " ++ (transport req).text)), [req])
       else
         (.ok (transport req).json, [req])) := by
  unfold SunoMIDIUploader.upload_midi
  simp only [hfs]
  rw [if_neg (not_not_intro hext)]

/-- On an existing valid-extension file, `upload_midi` issues exactly one
multipart request, whose form data holds the optional fields only when
truthy. -/
theorem upload_midi_valid_requests (c : SunoMIDIUploader) (fs : String → Option String)
    (midi_path : String) (title style : Option String) (tags : Option (List String))
    (transport : Request → Response) (d : String)
    (hfs : fs midi_path = some d)
    (hext : strLower (pathSuffix midi_path) = ".mid" ∨
      strLower (pathSuffix midi_path) = ".midi") :
    (c.upload_midi fs midi_path title style tags transport).2 =
      [Request.postMultipart (c.base_url ++ "/uploads/midi")
        [("Authorization", "Bearer " ++ c.api_key)]
        [("midi_file", pathName midi_path, d, "audio/midi")]
        ((if truthyStr title then [("title", title.getD "")] else []) ++
         (if truthyStr style then [("style", style.getD "")] else []) ++
         (if truthyList tags then [("tags", jsonDumpsList (tags.getD []))] else []))] := by
  rw [upload_midi_valid c fs midi_path title style tags transport d hfs hext]
  dsimp only
  rw [apply_ite Prod.snd, ite_self]

/-- C8: a non-empty tag list is transmitted as a single `tags` form field
holding the JSON serialization of the list (items joined by a comma and a
space), e.g. `["a", "b"]` becomes the literal string `'["a", "b"]'` — not
multiple form fields, not a native array. -/
theorem upload_tags_single_json_field (c : SunoMIDIUploader) (fs : String → Option String)
    (midi_path d : String) (title style : Option String) (l : List String)
    (transport : Request → Response)
    (hfs : fs midi_path = some d)
    (hext : strLower (pathSuffix midi_path) = ".mid" ∨
      strLower (pathSuffix midi_path) = ".midi")
    (hl : l ≠ []) :
    (uploadFormData (c.upload_midi fs midi_path title style (some l) transport).2).filter
        (fun kv => kv.1 == "tags") = [("tags", jsonDumpsList l)] ∧
    jsonDumpsList ["a", "b"] = "[\"a\", \"b\"]" := by
  have htg : truthyList (some l) = true := by
    cases l with
    | nil => exact absurd rfl hl
    | cons a as => rfl
  constructor
  · rw [upload_midi_valid_requests c fs midi_path title style (some l) transport d hfs hext]
    simp only [uploadFormData]
    rw [List.filter_append, List.filter_append]
    have h1 : (if truthyStr title then [("title", title.getD "")] else []).filter
        (fun kv => kv.1 == "tags") = [] := by split <;> rfl
    have h2 : (if truthyStr style then [("style", style.getD "")] else []).filter
        (fun kv => kv.1 == "tags") = [] := by split <;> rfl
    have h3 : (if truthyList (some l) then [("tags", jsonDumpsList ((some l).getD []))]
        else []).filter (fun kv => kv.1 == "tags") = [("tags", jsonDumpsList l)] := by
      rw [if_pos htg]
      rfl
    rw [h1, h2, h3]
    rfl
  · decide

/-- C10: optional Upload fields with falsy values (empty-string title or
style, empty tag list) are omitted from the form data exactly as if absent:
the form contains a `title`/`style`/`tags` key exactly when the
corresponding argument is truthy, and passing `some ""` (or `some []` for
tags) yields a result identical to passing `none`. -/
theorem upload_omits_falsy_fields (c : SunoMIDIUploader) (fs : String → Option String)
    (midi_path d : String) (title style : Option String) (tags : Option (List String))
    (transport : Request → Response)
    (hfs : fs midi_path = some d)
    (hext : strLower (pathSuffix midi_path) = ".mid" ∨
      strLower (pathSuffix midi_path) = ".midi") :
    ((uploadFormData (c.upload_midi fs midi_path title style tags transport).2).any
        (fun kv => kv.1 == "title") = truthyStr title ∧
     (uploadFormData (c.upload_midi fs midi_path title style tags transport).2).any
        (fun kv => kv.1 == "style") = truthyStr style ∧
     (uploadFormData (c.upload_midi fs midi_path title style tags transport).2).any
        (fun kv => kv.1 == "tags") = truthyList tags) ∧
    c.upload_midi fs midi_path (some "") style tags transport =
      c.upload_midi fs midi_path none style tags transport ∧
    c.upload_midi fs midi_path title (some "") tags transport =
      c.upload_midi fs midi_path title none tags transport ∧
    c.upload_midi fs midi_path title style (some []) transport =
      c.upload_midi fs midi_path title style none transport := by
  refine ⟨?_, ?_, ?_, ?_⟩
  · rw [upload_midi_valid_requests c fs midi_path title style tags transport d hfs hext]
    simp only [uploadFormData, List.any_append]
    cases htb : truthyStr title <;> cases hsb : truthyStr style <;>
      cases hgb : truthyList tags <;> simp [htb, hsb, hgb]
  · rfl
  · rfl
  · rfl

/-- Full behaviour of `generate_from_midi` on an existing valid-extension
file when the upload round-trip succeeds: the upload request is issued
first, then exactly one generate POST, whose outcome is decided by the
generate response's status code. -/
theorem generate_from_midi_valid (c : SunoMIDIUploader) (fs : String → Option String)
    (midi_path d : String) (prompt : Option String) (style : String) (duration : Nat)
    (upResp genResp : Response)
    (hfs : fs midi_path = some d)
    (hext : strLower (pathSuffix midi_path) = ".mid" ∨
      strLower (pathSuffix midi_path) = ".midi")
    (hup : upResp.statusCode = 200) :
    c.generate_from_midi fs midi_path prompt style duration
        (fun r => match r with
          | .postMultipart _ _ _ _ => upResp
          | _ => genResp) =
      (if genResp.statusCode ≠ 200 then
        (.error (.exception ("Generation failed: " ++ toString genResp.statusCode ++ " - " ++
          genResp.text)),
         [Request.postMultipart (c.base_url ++ "/uploads/midi")
            [("Authorization", "Bearer " ++ c.api_key)]
            [("midi_file", pathName midi_path, d, "audio/midi")] [],
          Request.postJson (c.base_url ++ "/generate") c.headers
            ⟨upResp.json.midi_id, style, duration,
             if truthyStr prompt then prompt else none⟩])
      else
        (.ok genResp.json,
         [Request.postMultipart (c.base_url ++ "/uploads/midi")
            [("Authorization", "Bearer " ++ c.api_key)]
            [("midi_file", pathName midi_path, d, "audio/midi")] [],
          Request.postJson (c.base_url ++ "/generate") c.headers
            ⟨upResp.json.midi_id, style, duration,
             if truthyStr prompt then prompt else none⟩])) := by
  unfold SunoMIDIUploader.generate_from_midi
  rw [upload_midi_valid c fs midi_path none none none
    (fun r => match r with
      | .postMultipart _ _ _ _ => upResp
      | _ => genResp) d hfs hext]
  dsimp only
  rw [hup]
  rfl

/-- C7: every Generate call performs a full Upload first, then one POST to
`{base}/generate` whose JSON body holds `midi_id` as read from the upload
response (possibly `none`, i.e. JSON `null`, when the response lacks the
key — Generate still proceeds), `style`, `duration`, and `prompt` only when
provided; on a 200 generate response it returns that response's JSON. -/
theorem generate_uploads_then_posts (c : SunoMIDIUploader) (fs : String → Option String)
    (midi_path d : String) (prompt : Option String) (style : String) (duration : Nat)
    (upResp genResp : Response)
    (hfs : fs midi_path = some d)
    (hext : strLower (pathSuffix midi_path) = ".mid" ∨
      strLower (pathSuffix midi_path) = ".midi")
    (hup : upResp.statusCode = 200) :
    (c.generate_from_midi fs midi_path prompt style duration
        (fun r => match r with
          | .postMultipart _ _ _ _ => upResp
          | _ => genResp)).2 =
      [Request.postMultipart (c.base_url ++ "/uploads/midi")
         [("Authorization", "Bearer " ++ c.api_key)]
         [("midi_file", pathName midi_path, d, "audio/midi")] [],
       Request.postJson (c.base_url ++ "/generate") c.headers
         ⟨upResp.json.midi_id, style, duration,
          if truthyStr prompt then prompt else none⟩] ∧
    (genResp.statusCode = 200 →
      (c.generate_from_midi fs midi_path prompt style duration
          (fun r => match r with
            | .postMultipart _ _ _ _ => upResp
            | _ => genResp)).1 = .ok genResp.json) := by
  rw [generate_from_midi_valid c fs midi_path d prompt style duration upResp genResp hfs hext hup]
  constructor
  · rw [apply_ite Prod.snd, ite_self]
  · intro hg
    rw [hg]
    rfl

/-- An upload response whose JSON lacks `midi_id`. -/
def upNoId : Response := ⟨200, "u", emptyJson⟩

/-- A generate response carrying a `job_id`. -/
def genJob : Response := ⟨200, "g", ⟨none, some "job9", none, none, []⟩⟩

/-- Witness for C7: with an upload response lacking `midi_id`, Generate
still issues the generate POST, with a `null` (`none`) id in the body. -/
theorem generate_uploads_then_posts_witness :
    (testClient.generate_from_midi fsSong "song.mid" (some "go") "edm" 180
        (fun r => match r with
          | .postMultipart _ _ _ _ => upNoId
          | _ => genJob)).2 =
      [Request.postMultipart "https://api.suno.ai/v1/uploads/midi"
         [("Authorization", "Bearer key")]
         [("midi_file", "song.mid", "MIDI", "audio/midi")] [],
       Request.postJson "https://api.suno.ai/v1/generate"
         [("Authorization", "Bearer key"), ("Content-Type", "application/json")]
         ⟨none, "edm", 180, some "go"⟩] ∧
    (genJob.statusCode = 200 →
      (testClient.generate_from_midi fsSong "song.mid" (some "go") "edm" 180
          (fun r => match r with
            | .postMultipart _ _ _ _ => upNoId
            | _ => genJob)).1 = .ok genJob.json) :=
  generate_uploads_then_posts testClient fsSong "song.mid" "MIDI" (some "go") "edm" 180
    upNoId genJob (by decide) (by decide) (by decide)

/-- Counterexample to C1 as stated: two non-200 Download responses with the
same status code but different bodies raise the identical error, so the
Download error cannot carry the response body. -/
theorem download_error_drops_body :
    (testClient.download_result "u" "out.mp3" fsSong (fun _ => ⟨500, "body-A", emptyJson⟩)).1 =
      (testClient.download_result "u" "out.mp3" fsSong (fun _ => ⟨500, "body-B", emptyJson⟩)).1 ∧
    "body-A" ≠ "body-B" := by decide

/-- C1 (amended): every non-200 response makes the operation raise
immediately with no retry (the failing call is issued exactly once);
Upload, Generate and Poll errors carry both the exact status code and the
raw body, while the Download error carries the exact status code only. -/
theorem nonsuccess_response_errors (c : SunoMIDIUploader) (fs : String → Option String)
    (midi_path d job_id result_url output_path : String)
    (code : Nat) (body : String) (j : JsonObject) (okBody : String) (okJ : JsonObject)
    (hfs : fs midi_path = some d)
    (hext : strLower (pathSuffix midi_path) = ".mid" ∨
      strLower (pathSuffix midi_path) = ".midi")
    (hc : code ≠ 200) :
    ((c.upload_midi fs midi_path none none none (fun _ => ⟨code, body, j⟩)).1 =
        .error (.exception ("Upload failed: " ++ toString code ++ " - " ++ body)) ∧
      (c.upload_midi fs midi_path none none none (fun _ => ⟨code, body, j⟩)).2.length = 1) ∧
    ((c.get_generation_status job_id (fun _ => ⟨code, body, j⟩)).1 =
        .error (.exception ("Status check failed: " ++ toString code ++ " - " ++ body)) ∧
      (c.get_generation_status job_id (fun _ => ⟨code, body, j⟩)).2.length = 1) ∧
    ((c.generate_from_midi fs midi_path none "pop" 180
        (fun r => match r with
          | .postMultipart _ _ _ _ => ⟨200, okBody, okJ⟩
          | _ => ⟨code, body, j⟩)).1 =
        .error (.exception ("Generation failed: " ++ toString code ++ " - " ++ body)) ∧
      (c.generate_from_midi fs midi_path none "pop" 180
        (fun r => match r with
          | .postMultipart _ _ _ _ => ⟨200, okBody, okJ⟩
          | _ => ⟨code, body, j⟩)).2.length = 2) ∧
    ((c.download_result result_url output_path fs (fun _ => ⟨code, body, j⟩)).1 =
        .error (.exception ("Download failed: " ++ toString code)) ∧
      (c.download_result result_url output_path fs (fun _ => ⟨code, body, j⟩)).2.2.length = 1) := by
  refine ⟨⟨?_, ?_⟩, ⟨?_, ?_⟩, ⟨?_, ?_⟩, ⟨?_, ?_⟩⟩
  · rw [upload_midi_valid c fs midi_path none none none (fun _ => ⟨code, body, j⟩) d hfs hext]
    dsimp only
    rw [if_pos hc]
  · rw [upload_midi_valid c fs midi_path none none none (fun _ => ⟨code, body, j⟩) d hfs hext]
    dsimp only
    rw [if_pos hc]
    rfl
  · unfold SunoMIDIUploader.get_generation_status
    dsimp only
    rw [if_pos hc]
  · unfold SunoMIDIUploader.get_generation_status
    dsimp only
    rw [if_pos hc]
    rfl
  · rw [generate_from_midi_valid c fs midi_path d none "pop" 180 ⟨200, okBody, okJ⟩
      ⟨code, body, j⟩ hfs hext rfl]
    dsimp only
    rw [if_pos hc]
  · rw [generate_from_midi_valid c fs midi_path d none "pop" 180 ⟨200, okBody, okJ⟩
      ⟨code, body, j⟩ hfs hext rfl]
    dsimp only
    rw [if_pos hc]
    rfl
  · unfold SunoMIDIUploader.download_result
    dsimp only
    rw [if_pos hc]
  · unfold SunoMIDIUploader.download_result
    dsimp only
    rw [if_pos hc]
    rfl

/-- Witness for C1 (amended) at status 500 with body `"oops"`. -/
theorem nonsuccess_response_errors_witness :
    ((testClient.upload_midi fsSong "song.mid" none none none
        (fun _ => ⟨500, "oops", emptyJson⟩)).1 =
        .error (.exception "Upload failed: 500 - oops") ∧
      (testClient.upload_midi fsSong "song.mid" none none none
        (fun _ => ⟨500, "oops", emptyJson⟩)).2.length = 1) ∧
    ((testClient.get_generation_status "job" (fun _ => ⟨500, "oops", emptyJson⟩)).1 =
        .error (.exception "Status check failed: 500 - oops") ∧
      (testClient.get_generation_status "job" (fun _ => ⟨500, "oops", emptyJson⟩)).2.length = 1) ∧
    ((testClient.generate_from_midi fsSong "song.mid" none "pop" 180
        (fun r => match r with
          | .postMultipart _ _ _ _ => ⟨200, "u", emptyJson⟩
          | _ => ⟨500, "oops", emptyJson⟩)).1 =
        .error (.exception "Generation failed: 500 - oops") ∧
      (testClient.generate_from_midi fsSong "song.mid" none "pop" 180
        (fun r => match r with
          | .postMultipart _ _ _ _ => ⟨200, "u", emptyJson⟩
          | _ => ⟨500, "oops", emptyJson⟩)).2.length = 2) ∧
    ((testClient.download_result "u" "out.mp3" fsSong (fun _ => ⟨500, "oops", emptyJson⟩)).1 =
        .error (.exception "Download failed: 500") ∧
      (testClient.download_result "u" "out.mp3" fsSong
        (fun _ => ⟨500, "oops", emptyJson⟩)).2.2.length = 1) :=
  nonsuccess_response_errors testClient fsSong "song.mid" "MIDI" "job" "u" "out.mp3"
    500 "oops" emptyJson "u" emptyJson (by decide) (by decide) (by decide)

/-- Witness for C8: tags `["a", "b"]` travel as the single form field
`("tags", '["a", "b"]')`. -/
theorem upload_tags_single_json_field_witness :
    (uploadFormData (testClient.upload_midi fsSong "song.mid" none none (some ["a", "b"])
        (fun _ => ⟨200, "ok", emptyJson⟩)).2).filter (fun kv => kv.1 == "tags") =
      [("tags", "[\"a\", \"b\"]")] ∧
    jsonDumpsList ["a", "b"] = "[\"a\", \"b\"]" :=
  upload_tags_single_json_field testClient fsSong "song.mid" "MIDI" none none ["a", "b"]
    (fun _ => ⟨200, "ok", emptyJson⟩) (by decide) (by decide) (by decide)

/-- Witness for C10: with a truthy title, an empty-string style and no tags,
the form holds exactly the `title` key, and empty-string/empty-list
arguments give the same result as omitted ones. -/
theorem upload_omits_falsy_fields_witness :
    ((uploadFormData (testClient.upload_midi fsSong "song.mid" (some "T") (some "") none
        (fun _ => ⟨200, "ok", emptyJson⟩)).2).any (fun kv => kv.1 == "title") = true ∧
     (uploadFormData (testClient.upload_midi fsSong "song.mid" (some "T") (some "") none
        (fun _ => ⟨200, "ok", emptyJson⟩)).2).any (fun kv => kv.1 == "style") = false ∧
     (uploadFormData (testClient.upload_midi fsSong "song.mid" (some "T") (some "") none
        (fun _ => ⟨200, "ok", emptyJson⟩)).2).any (fun kv => kv.1 == "tags") = false) ∧
    testClient.upload_midi fsSong "song.mid" (some "") (some "") none
        (fun _ => ⟨200, "ok", emptyJson⟩) =
      testClient.upload_midi fsSong "song.mid" none (some "") none
        (fun _ => ⟨200, "ok", emptyJson⟩) ∧
    testClient.upload_midi fsSong "song.mid" (some "T") (some "") none
        (fun _ => ⟨200, "ok", emptyJson⟩) =
      testClient.upload_midi fsSong "song.mid" (some "T") none none
        (fun _ => ⟨200, "ok", emptyJson⟩) ∧
    testClient.upload_midi fsSong "song.mid" (some "T") (some "") (some [])
        (fun _ => ⟨200, "ok", emptyJson⟩) =
      testClient.upload_midi fsSong "song.mid" (some "T") (some "") none
        (fun _ => ⟨200, "ok", emptyJson⟩) :=
  upload_omits_falsy_fields testClient fsSong "song.mid" "MIDI" (some "T") (some "") none
    (fun _ => ⟨200, "ok", emptyJson⟩) (by decide) (by decide)
